import Mathlib

/-!
Shallow embedding of the InformationAuthenticator backend (src/app.py).

The program is a Flask service; the network-bound collaborators (the two
paper-search providers and the Gemini text-generation provider) enter the
embedding as explicit parameters: a provider response is a value, the
text-generation provider is an oracle function returning `Except`.
Python dictionaries parsed from provider JSON distinguish an absent key
from a key present with value null; `dict.get(k, default)` substitutes
the default only when the key is absent.  The embedding models this with
`Option PyVal` fields (`none` = key absent) and a `PyVal.none`
constructor (= JSON null).  Python exceptions raised inside an adapter
are modeled with `Except PyErr`.
-/

/-- A Python runtime error kind relevant to src/app.py: subscripting or
slicing a value of the wrong type, indexing past the end, a missing
dictionary key, and calling a missing method such as `.lower()`. -/
inductive PyErr where
  | typeError
  | indexError
  | keyError
  | attrError
deriving DecidableEq, Repr

/-- A Python value as it occurs in the provider payloads handled by
src/app.py: strings, integers, lists, string-keyed dictionaries, and
None (JSON null). -/
inductive PyVal where
  | str : String → PyVal
  | int : Int → PyVal
  | list : List PyVal → PyVal
  | dict : List (String × PyVal) → PyVal
  | none : PyVal

/-- `True` for every value except Python `None`. -/
def scalarNonNull (v : PyVal) : Bool :=
  match v with
  | .none => false
  | _ => true

/-- Python `str(v)` as used in the f-strings of src/app.py (lines 124 and
176).  Exact for strings, integers and None; the provider identifiers
interpolated there are strings in every payload shape the code reads, so
the container cases are abbreviated renderings. -/
def pyStrOf (v : PyVal) : String :=
  match v with
  | .str s => s
  | .int n => toString n
  | .none => "None"
  | .list _ => "[...]"
  | .dict _ => "\x7b...\x7d"

/-- Python `v[:n]` (lines 126 and 178): slices strings and lists,
raises TypeError on other values.  Python slices strings by code point,
matching `String.data`. -/
def pySlice (v : PyVal) (n : Nat) : Except PyErr PyVal :=
  match v with
  | .str s => .ok (.str ⟨s.data.take n⟩)
  | .list xs => .ok (.list (xs.take n))
  | _ => .error .typeError

/-- Python `v[i]` for a natural index (lines 172 and 175): lists yield the
element or IndexError, strings yield a one-character string or IndexError,
other values raise TypeError. -/
def pyIndex (v : PyVal) (i : Nat) : Except PyErr PyVal :=
  match v with
  | .list xs =>
    match xs.get? i with
    | some x => .ok x
    | Option.none => .error .indexError
  | .str s =>
    match s.data.get? i with
    | some c => .ok (.str (String.singleton c))
    | Option.none => .error .indexError
  | _ => .error .typeError

/-- `True` when `k` occurs in `s` (Python substring containment). -/
def strContainsSub (k s : String) : Bool :=
  k.isEmpty || 1 < (s.splitOn k).length

/-- Python `k in v` for a string `k` (line 171): key test on a dict,
membership on a list, substring test on a string, TypeError otherwise. -/
def pyContainsKey (k : String) (v : PyVal) : Except PyErr Bool :=
  match v with
  | .dict es => .ok (es.lookup k).isSome
  | .list xs => .ok (xs.any fun x => match x with | .str s => s == k | _ => false)
  | .str s => .ok (strContainsSub k s)
  | _ => .error .typeError

/-- Python `v[k]` for a string key (line 172): dictionary lookup; any
other value raises TypeError under a string subscript. -/
def pySubscript (v : PyVal) (k : String) : Except PyErr PyVal :=
  match v with
  | .dict es =>
    match es.lookup k with
    | some x => .ok x
    | Option.none => .error .keyError
  | _ => .error .typeError

/-- ASCII lowering of one character, as `str.lower` acts on the ASCII
range. -/
def charLower (c : Char) : Char :=
  if 'A' ≤ c ∧ c ≤ 'Z' then Char.ofNat (c.toNat + 32) else c

/-- `str.lower` restricted to ASCII case folding, which models Python
`.lower()` on the title data the claims concern. -/
def pyStrLower (s : String) : String := ⟨s.data.map charLower⟩

/-- Python `v.lower()` (lines 274 and 276): defined on strings, raises
AttributeError otherwise. -/
def pyLower (v : PyVal) : Except PyErr String :=
  match v with
  | .str s => .ok (pyStrLower s)
  | _ => .error .attrError

/-- Python `str.strip()` (lines 236, 330, 373 and 404): removes leading
and trailing whitespace. -/
def pyStrip (s : String) : String :=
  ⟨((s.data.dropWhile Char.isWhitespace).reverse.dropWhile Char.isWhitespace).reverse⟩

/-- One retrieved document as built by the two adapters: the dictionary
with keys title, url, year and abstract appended at lines 122-127 and
174-179.  Every record carries all four keys; the values are arbitrary
Python values (a provider null passes through `dict.get`). -/
structure PaperRecord where
  title : PyVal
  url : PyVal
  year : PyVal
  abstract : PyVal

/-- One item of the Semantic Scholar response array `data['data']`
(line 121), with `none` marking an absent key. -/
structure S2Item where
  title : Option PyVal
  url : Option PyVal
  year : Option PyVal
  abstract : Option PyVal
  paperId : Option PyVal

/-- One item of the CrossRef response array `data['message']['items']`
(line 168), with `none` marking an absent key. -/
structure CRItem where
  title : Option PyVal
  doi : Option PyVal
  published : Option PyVal
  abstract : Option PyVal

/-- Sequential effectful map over a list in the `Except` monad: the
Python `for` loops at lines 121-127 and 168-179 append one adapted record
per item and abandon the whole batch on the first raised exception. -/
def mapExcept (f : α → Except PyErr β) : List α → Except PyErr (List β)
  | [] => .ok []
  | x :: xs =>
    match f x with
    | .error e => .error e
    | .ok y =>
      match mapExcept f xs with
      | .error e => .error e
      | .ok ys => .ok (y :: ys)

/-- Adaptation of one Semantic Scholar item (lines 122-127).  Only the
abstract slice can raise, so it is matched first; the remaining fields
are total `dict.get` reads with defaults. -/
def s2AdaptItem (paper : S2Item) : Except PyErr PaperRecord :=
  match pySlice ((paper.abstract).getD (PyVal.str "No abstract available")) 500 with
  | .error e => .error e
  | .ok ab =>
    .ok
      { title := (paper.title).getD (PyVal.str "No title available")
        url := (paper.url).getD
          (PyVal.str ("https://www.semanticscholar.org/paper/" ++
            pyStrOf ((paper.paperId).getD (PyVal.str ""))))
        year := (paper.year).getD (PyVal.str "N/A")
        abstract := ab }

/-- `search_semantic_scholar` (lines 96-137): `none` stands for a network
failure, a non-200 status, or a body without the `data` key (all three
yield the empty list, lines 120 and 131-137); `some items` is the parsed
response array.  Any exception inside the loop also yields the empty
list via the enclosing `try`. -/
def search_semantic_scholar (resp : Option (List S2Item)) : List PaperRecord :=
  match resp with
  | Option.none => []
  | some items =>
    match mapExcept s2AdaptItem items with
    | .error _ => []
    | .ok papers => papers

/-- Year extraction from one CrossRef item (lines 170-172):
`year = 'N/A'` unless the item has a `published` key whose value
contains `date-parts`, in which case `item['published']['date-parts'][0][0]`
is read (each step may raise). -/
def crYear (published : Option PyVal) : Except PyErr PyVal :=
  match published with
  | Option.none => .ok (PyVal.str "N/A")
  | some pub =>
    match pyContainsKey "date-parts" pub with
    | .error e => .error e
    | .ok false => .ok (PyVal.str "N/A")
    | .ok true =>
      match pySubscript pub "date-parts" with
      | .error e => .error e
      | .ok dp =>
        match pyIndex dp 0 with
        | .error e => .error e
        | .ok row => pyIndex row 0

/-- Adaptation of one CrossRef item (lines 170-179): the year block runs
first, then the record dictionary is built; the title default is a
one-element list indexed at 0, the url is synthesized from the DOI, and
the abstract is sliced to 500. -/
def crAdaptItem (item : CRItem) : Except PyErr PaperRecord :=
  match crYear item.published with
  | .error e => .error e
  | .ok year =>
    match pyIndex ((item.title).getD (PyVal.list [PyVal.str "No title available"])) 0 with
    | .error e => .error e
    | .ok title =>
      match pySlice ((item.abstract).getD (PyVal.str "No abstract available")) 500 with
      | .error e => .error e
      | .ok ab =>
        .ok
          { title := title
            url := PyVal.str ("https://doi.org/" ++ pyStrOf ((item.doi).getD (PyVal.str "")))
            year := year
            abstract := ab }

/-- `search_crossref` (lines 143-189), shaped like the Semantic Scholar
adapter: failures and exceptions yield the empty list. -/
def search_crossref (resp : Option (List CRItem)) : List PaperRecord :=
  match resp with
  | Option.none => []
  | some items =>
    match mapExcept crAdaptItem items with
    | .error _ => []
    | .ok papers => papers

/-- `calculate_confidence` (lines 73-90), over Python integers. -/
def calculate_confidence (result_count : Int) : String :=
  if result_count = 0 then "Not supported"
  else if 1 ≤ result_count ∧ result_count ≤ 3 then "Weak Evidence"
  else if 4 ≤ result_count ∧ result_count ≤ 9 then "Moderate Evidence"
  else "Strong Evidence"

/-- The fixed Gemini prompt template of `generate_summary` (lines 211-226):
titles and abstracts are concatenated into `content`, which is wrapped in
the triple-quoted instruction text. -/
def summaryPrompt (papers : List PaperRecord) : String :=
  let content := papers.foldl
    (fun acc p => acc ++ "Title: " ++ pyStrOf p.title ++ "\nAbstract: " ++ pyStrOf p.abstract ++ "\n\n")
    ""
  "\n    Summarize the following academic research papers into a clear,\n    concise 5-7 line explanation suitable for a general audience:\n\n    " ++
    content ++
    "\n\n    Provide a coherent summary that highlights the main findings and consensus.\n    "

/-- `generate_summary` (lines 195-244).  The Gemini call is the oracle
`gemini`: `.ok text` is `response.text`, `.error` is any exception raised
by model construction, the request, or reading the response; the `except`
at line 240 turns every such error into the fixed fallback string.  With
an empty paper list the function returns at line 209 before the oracle is
consulted. -/
def generate_summary (papers : List PaperRecord) (gemini : String → Except Unit String) : String :=
  if papers.isEmpty then "No papers available to summarize."
  else
    match gemini (summaryPrompt papers) with
    | .ok text => pyStrip text
    | .error _ => "AI summary unavailable due to Gemini API error."

/-- The CrossRef-merge loop of `verify_information` (lines 275-277): each
CrossRef paper is appended to `all_papers` exactly when its lowercased
title is not in `existing_titles`; the set is never extended inside the
loop. -/
def combineLoop (existing_titles : List String) (all_papers : List PaperRecord) :
    List PaperRecord → Except PyErr (List PaperRecord)
  | [] => .ok all_papers
  | paper :: rest =>
    match pyLower paper.title with
    | .error e => .error e
    | .ok t =>
      if existing_titles.contains t then combineLoop existing_titles all_papers rest
      else combineLoop existing_titles (all_papers ++ [paper]) rest

/-- Lines 271-277 of `verify_information`: `all_papers` starts as a copy
of the Semantic Scholar list, `existing_titles` is the set of its
lowercased titles (computed once, line 274), and the CrossRef papers are
merged by `combineLoop`.  Set membership is modeled by list membership;
a non-string title raises at the `.lower()` call. -/
def verify_combine (semantic_papers crossref_papers : List PaperRecord) :
    Except PyErr (List PaperRecord) :=
  match mapExcept (fun p => pyLower p.title) semantic_papers with
  | .error e => .error e
  | .ok existing_titles => combineLoop existing_titles semantic_papers crossref_papers

/-- Lines 271-280: the merged list truncated to the requested number of
results (`all_papers[:limit]`). -/
def aggregate_papers (semantic_papers crossref_papers : List PaperRecord) (limit : Nat) :
    Except PyErr (List PaperRecord) :=
  match verify_combine semantic_papers crossref_papers with
  | .error e => .error e
  | .ok combined => .ok (combined.take limit)

/-- The JSON payload returned by `verify_information` (lines 295-310). -/
structure VerificationResult where
  found : Bool
  confidence : String
  result_count : Nat
  summary : String
  results : List PaperRecord

/-- `verify_information` (lines 250-310) from the point where the two
adapter outputs are in hand.  The adapters are network calls
(lines 267-268) whose outputs enter as the two list parameters; the
database write (line 289) is a fire-and-forget side effect with no
influence on the returned value and is not modeled.  `generate_summary`
is invoked on the truncated list (line 292) before the branch on
`result_count`, and the zero-count branch answers with its own fixed
summary string (line 308). -/
def verify_information (semantic_papers crossref_papers : List PaperRecord) (limit : Nat)
    (gemini : String → Except Unit String) : Except PyErr VerificationResult :=
  match aggregate_papers semantic_papers crossref_papers limit with
  | .error e => .error e
  | .ok all_papers =>
    let result_count := all_papers.length
    let confidence := calculate_confidence (Int.ofNat result_count)
    let summary := generate_summary all_papers gemini
    .ok
      (if result_count > 0 then
        { found := true
          confidence := confidence
          result_count := result_count
          summary := summary
          results := all_papers }
      else
        { found := false
          confidence := confidence
          result_count := 0
          summary := "No research papers found to generate a summary."
          results := [] })

/-- Floor of base-2 logarithm via fuelled halving; the fuel argument
`n` itself always suffices. -/
def log2Aux : Nat → Nat → Nat
  | 0, _ => 0
  | fuel + 1, n => if 2 ≤ n then log2Aux fuel (n / 2) + 1 else 0

/-- Floor of base-2 logarithm of a positive natural. -/
def log2Floor (n : Nat) : Nat := log2Aux n n

/-- Round `p / 2 ^ k` to the nearest integer, ties to even: the IEEE-754
significand rounding step. -/
def rneShift (p k : Nat) : Nat :=
  if k = 0 then p
  else
    let q := p / 2 ^ k
    let r := p % 2 ^ k
    let h := 2 ^ (k - 1)
    if r < h then q else if h < r then q + 1 else if q % 2 = 0 then q else q + 1

/-- The integer significand of the IEEE-754 double nearest 0.7, scaled by
2^52: the literal `0.7` of line 263 denotes exactly this value / 2^52. -/
def DOUBLE_POINT_SEVEN_NUM : Nat := 3152519739159347

/-- Python `int(n * 0.7)` (line 263) for a non-negative int `n` below
2^53 (so `n` itself is an exact double): the exact product
`n * (DOUBLE_POINT_SEVEN_NUM / 2^52)` is rounded to a 53-bit significand
with ties to even (the IEEE multiplication), then truncated toward zero.
`L` is the binade exponent of the scaled product; products of at most 53
bits are exact. -/
def pyIntTimesPointSeven (n : Nat) : Nat :=
  if n = 0 then 0
  else
    let p := n * DOUBLE_POINT_SEVEN_NUM
    let L := log2Floor p
    if L ≤ 52 then p / 2 ^ 52
    else
      let M := rneShift p (L - 52)
      if 104 ≤ L then M * 2 ^ (L - 104) else M / 2 ^ (104 - L)

/-- `semantic_limit = int(limit * 0.7)` (line 263). -/
def semantic_limit (limit : Nat) : Nat := pyIntTimesPointSeven limit

/-- `crossref_limit = limit - semantic_limit` (line 264); the difference
is never negative since `int(limit * 0.7) ≤ limit`. -/
def crossref_limit (limit : Nat) : Nat := limit - semantic_limit limit

/-- One exchange stored in `session['chat_history']` (lines 409-412). -/
structure ChatTurn where
  user : String
  assistant : String

/-- The fixed persona preamble of the chatbot prompt (line 389). -/
def CHATBOT_PREAMBLE : String :=
  "You are a helpful AI assistant for an Information Authenticator app that verifies claims using academic research. Be concise, friendly, and informative.\n\n"

/-- Serialization of one stored turn inside the prompt (line 393). -/
def renderTurn (entry : ChatTurn) : String :=
  "User: " ++ entry.user ++ "\nAssistant: " ++ entry.assistant ++ "\n\n"

/-- The conversation prompt built at lines 389-396: preamble, then the
last 10 turns (`chat_history[-10:]`, oldest first), then the new user
message. -/
def buildPrompt (chat_history : List ChatTurn) (user_message : String) : String :=
  ((chat_history.drop (chat_history.length - 10)).foldl
      (fun acc entry => acc ++ renderTurn entry) CHATBOT_PREAMBLE) ++
    "User: " ++ user_message ++ "\nAssistant:"

/-- The `/chatbot` handler (lines 361-425) for one request: the message
is stripped, an empty message answers with the 400 reply and leaves the
history alone; otherwise the prompt is sent to the Gemini oracle; on
success the stripped reply is appended to the history, on any exception
the fixed fallback reply is returned and the history is unchanged
(lines 420-425 run before the append at line 409 is reached).  The
returned pair is (reply text, chat history after the request). -/
def chatbot (chat_history : List ChatTurn) (message : String)
    (gemini : String → Except Unit String) : String × List ChatTurn :=
  let user_message := pyStrip message
  if user_message = "" then ("Please enter a message.", chat_history)
  else
    match gemini (buildPrompt chat_history user_message) with
    | .ok text =>
      let bot_reply := pyStrip text
      (bot_reply, chat_history ++ [{ user := user_message, assistant := bot_reply }])
    | .error _ => ("Sorry, I encountered an error. Please try again.", chat_history)

/-- `/chatbot/clear` (lines 427-432). -/
def clear_chat : List ChatTurn := []

/-- Concatenation of rendered strings, used to state the prompt shape. -/
def concatMap (f : α → String) : List α → String
  | [] => ""
  | x :: xs => f x ++ concatMap f xs

/-- The merge-loop test of line 276 as a predicate on one CrossRef
paper: keep the paper exactly when its lowercased title is not among
`existing_titles`; papers whose titles are not strings raise instead,
so the predicate is only consulted on lowerable titles. -/
def keepsPaper (existing_titles : List String) (p : PaperRecord) : Bool :=
  match pyLower p.title with
  | .ok t => !(existing_titles.contains t)
  | .error _ => true

/-- `True` when the paper's title lowers to exactly `t`. -/
def lowEq (p : PaperRecord) (t : String) : Bool :=
  match pyLower p.title with
  | .ok u => u == t
  | .error _ => false

set_option maxRecDepth 10000

/-- claim C2: `calculate_confidence` maps every non-negative integer
count to exactly one of the four labels: 0 to "Not supported", 1-3 to
"Weak Evidence", 4-9 to "Moderate Evidence", 10 and above to
"Strong Evidence"; the function is a pure total function, so it is
deterministic and has no failure mode. -/
theorem claim_C2 (n : Int) (_hn : 0 ≤ n) :
    (n = 0 → calculate_confidence n = "Not supported")
    ∧ ((1 ≤ n ∧ n ≤ 3) → calculate_confidence n = "Weak Evidence")
    ∧ ((4 ≤ n ∧ n ≤ 9) → calculate_confidence n = "Moderate Evidence")
    ∧ (10 ≤ n → calculate_confidence n = "Strong Evidence")
    ∧ (calculate_confidence n = "Not supported" ∨ calculate_confidence n = "Weak Evidence"
        ∨ calculate_confidence n = "Moderate Evidence"
        ∨ calculate_confidence n = "Strong Evidence") := by
  unfold calculate_confidence
  split_ifs with h1 h2 h3
  · exact ⟨fun _ => rfl, fun h => by omega, fun h => by omega, fun h => by omega, Or.inl rfl⟩
  · exact ⟨fun h => by omega, fun _ => rfl, fun h => by omega, fun h => by omega,
      Or.inr (Or.inl rfl)⟩
  · exact ⟨fun h => by omega, fun h => by omega, fun _ => rfl, fun h => by omega,
      Or.inr (Or.inr (Or.inl rfl))⟩
  · exact ⟨fun h => by omega, fun h => by omega, fun h => by omega, fun _ => rfl,
      Or.inr (Or.inr (Or.inr rfl))⟩

/-- Witness for claim C2 at the concrete count 7. -/
theorem claim_C2_witness : calculate_confidence 7 = "Moderate Evidence" :=
  (claim_C2 7 (by decide)).2.2.1 ⟨by decide, by decide⟩

/-- claim C10: `calculate_confidence` is total over all integers; every
negative input falls through the three guards into the catch-all else
branch and yields "Strong Evidence" rather than raising. -/
theorem claim_C10 (n : Int) (hneg : n < 0) : calculate_confidence n = "Strong Evidence" := by
  unfold calculate_confidence
  split_ifs with h1 h2 h3
  · exact absurd h1 (by omega)
  · exact absurd h2 (by omega)
  · exact absurd h3 (by omega)
  · rfl

/-- Witness for claim C10 at the concrete count -3. -/
theorem claim_C10_witness : calculate_confidence (-3) = "Strong Evidence" :=
  claim_C10 (-3) (by decide)

/-- Counterexample for claim C8: the claim asserts that for every
positive total limit the primary quota is 70 percent rounded down, but
`int(90 * 0.7)` under IEEE-754 double arithmetic is 62, one less than
the exact 70 percent floor 63; the secondary quota is 28 rather than 27. -/
theorem claim_C8_counterexample :
    semantic_limit 90 = 62 ∧ 90 * 7 / 10 = 63 ∧ crossref_limit 90 = 28 := by decide

/-- claim C8 as amended: the primary quota is `int(total_limit * 0.7)`
computed in IEEE-754 double arithmetic, which coincides with the exact
70-percent floor for every total limit up to 89 — in particular a call
with total limit 20 requests the primary adapter with limit 14 and the
secondary with limit 6 — and the secondary quota is always the remainder
`total_limit - semantic_limit total_limit`. -/
theorem claim_C8 :
    (∀ n, n < 90 → 0 < n →
      semantic_limit n = n * 7 / 10 ∧ crossref_limit n = n - n * 7 / 10)
    ∧ semantic_limit 20 = 14 ∧ crossref_limit 20 = 6
    ∧ ∀ n, crossref_limit n = n - semantic_limit n := by
  refine ⟨by decide, by decide, by decide, fun n => rfl⟩

/-- Witness for claim C8 at the concrete total limit 40. -/
theorem claim_C8_witness : semantic_limit 40 = 40 * 7 / 10 :=
  (claim_C8.1 40 (by decide) (by decide)).1

/-- String append acts as list append on the underlying character data. -/
theorem str_data_append (a b : String) : (a ++ b).data = a.data ++ b.data := by
  cases a
  cases b
  rfl

/-- Strings with equal character data are equal. -/
theorem str_ext {a b : String} (h : a.data = b.data) : a = b := by
  cases a
  cases b
  exact congrArg String.mk h

/-- The empty string is a right identity for append. -/
theorem str_append_empty (s : String) : s ++ "" = s := by
  apply str_ext
  simp [str_data_append]

/-- String append is associative. -/
theorem str_append_assoc (a b c : String) : a ++ b ++ c = a ++ (b ++ c) := by
  apply str_ext
  simp [str_data_append]

/-- The prompt-building fold appends the rendering of each turn, oldest
first, to whatever precedes it. -/
theorem foldl_render_eq (xs : List ChatTurn) (acc : String) :
    xs.foldl (fun acc entry => acc ++ renderTurn entry) acc = acc ++ concatMap renderTurn xs := by
  induction xs generalizing acc with
  | nil => simp [concatMap, str_append_empty]
  | cons x xs ih =>
    simp only [List.foldl_cons, concatMap]
    rw [ih, str_append_assoc]

/-- claim C5: `generate_summary` never raises: on an empty paper list it
returns the fixed message and the result does not depend on the
text-generation oracle at all (the provider is not invoked), and on any
provider error with a non-empty paper list it returns the fixed fallback
string instead of propagating the error. -/
theorem claim_C5 :
    (∀ g : String → Except Unit String,
      generate_summary [] g = "No papers available to summarize.")
    ∧ (∀ (papers : List PaperRecord) (g : String → Except Unit String) (e : Unit),
        papers ≠ [] → g (summaryPrompt papers) = Except.error e →
        generate_summary papers g = "AI summary unavailable due to Gemini API error.") := by
  constructor
  · intro g
    rfl
  · intro papers g e hne hg
    cases papers with
    | nil => exact absurd rfl hne
    | cons p ps => simp [generate_summary, hg]

/-- Witness for claim C5: a one-paper list with a failing oracle. -/
theorem claim_C5_witness :
    generate_summary [PaperRecord.mk (PyVal.str "T") (PyVal.str "u") (PyVal.int 2020)
        (PyVal.str "a")] (fun _ => Except.error ())
      = "AI summary unavailable due to Gemini API error." :=
  claim_C5.2 _ _ () (by simp) rfl

/-- claim C6: when the text-generation provider fails during a chat
reply, the handler returns the fixed fallback reply and the session's
turn history is returned unchanged, so the failed turn is never part of
a prompt built for a later turn. -/
theorem claim_C6 (chat_history : List ChatTurn) (message : String)
    (g : String → Except Unit String) (e : Unit)
    (hmsg : pyStrip message ≠ "")
    (hg : g (buildPrompt chat_history (pyStrip message)) = Except.error e) :
    chatbot chat_history message g
      = ("Sorry, I encountered an error. Please try again.", chat_history) := by
  unfold chatbot
  rw [if_neg hmsg, hg]

/-- Witness for claim C6: a failing oracle on a one-turn history. -/
theorem claim_C6_witness :
    chatbot [ChatTurn.mk "u1" "a1"] "hello" (fun _ => Except.error ())
      = ("Sorry, I encountered an error. Please try again.", [ChatTurn.mk "u1" "a1"]) :=
  claim_C6 _ _ _ () (by decide) rfl

/-- claim C7: the prompt built for a new chat turn is exactly the fixed
persona preamble, then the serialization of the last 10 stored turns in
oldest-first order, then the new user message; with 15 stored turns the
serialized turns are exactly the 10 most recent (positions 6 through 15). -/
theorem claim_C7 (chat_history : List ChatTurn) (user_message : String) :
    buildPrompt chat_history user_message
      = CHATBOT_PREAMBLE ++ concatMap renderTurn (chat_history.drop (chat_history.length - 10))
          ++ "User: " ++ user_message ++ "\nAssistant:"
    ∧ (chat_history.length = 15 →
        chat_history.drop (chat_history.length - 10) = chat_history.drop 5
        ∧ (chat_history.drop 5).length = 10) := by
  constructor
  · unfold buildPrompt
    rw [foldl_render_eq]
  · intro h15
    rw [h15]
    exact ⟨rfl, by simp [List.length_drop, h15]⟩

/-- Witness for claim C7: a concrete 15-turn history; the prompt for the
16th turn serializes exactly the last 10 turns. -/
theorem claim_C7_witness :
    buildPrompt (List.replicate 15 (ChatTurn.mk "u" "a")) "next"
      = CHATBOT_PREAMBLE
          ++ concatMap renderTurn ((List.replicate 15 (ChatTurn.mk "u" "a")).drop 5)
          ++ "User: " ++ "next" ++ "\nAssistant:" := by
  have h := claim_C7 (List.replicate 15 (ChatTurn.mk "u" "a")) "next"
  have h5 := (h.2 (by simp)).1
  rw [h.1, h5]

/-- Unfolding of the merge loop when every CrossRef title lowers: the
loop appends exactly the papers passing the `keepsPaper` test against
the fixed title set. -/
theorem combineLoop_ok_eq (cr : List PaperRecord) (ts : List String) (acc : List PaperRecord)
    (h : ∀ p ∈ cr, (pyLower p.title).isOk = true) :
    combineLoop ts acc cr = .ok (acc ++ cr.filter (keepsPaper ts)) := by
  induction cr generalizing acc with
  | nil => simp [combineLoop]
  | cons p rest ih =>
    have hp := h p (List.mem_cons_self p rest)
    have hrest : ∀ q ∈ rest, (pyLower q.title).isOk = true :=
      fun q hq => h q (List.mem_cons_of_mem p hq)
    match hpl : pyLower p.title with
    | .error e =>
      rw [hpl] at hp
      simp [Except.isOk, Except.toBool] at hp
    | .ok t =>
      simp only [combineLoop, hpl]
      cases hc : ts.contains t with
      | true =>
        rw [if_pos rfl, ih acc hrest, List.filter_cons,
          show keepsPaper ts p = false by simp only [keepsPaper, hpl]; simpa using hc]
        simp
      | false =>
        rw [if_neg Bool.false_ne_true, ih (acc ++ [p]) hrest, List.filter_cons,
          show keepsPaper ts p = true by simp only [keepsPaper, hpl]; simpa using hc]
        simp

/-- Whatever the merge loop returns extends its accumulator: the loop
only ever appends. -/
theorem combineLoop_extends (cr : List PaperRecord) (ts : List String)
    (acc l : List PaperRecord) (h : combineLoop ts acc cr = .ok l) :
    ∃ rest, l = acc ++ rest := by
  induction cr generalizing acc with
  | nil =>
    refine ⟨[], ?_⟩
    simp only [combineLoop, Except.ok.injEq] at h
    simp [h]
  | cons p rest ih =>
    simp only [combineLoop] at h
    match hpl : pyLower p.title with
    | .error e =>
      rw [hpl] at h
      exact absurd h (by simp)
    | .ok t =>
      simp only [hpl] at h
      cases hc : ts.contains t with
      | true =>
        rw [hc, if_pos rfl] at h
        exact ih acc h
      | false =>
        rw [hc, if_neg Bool.false_ne_true] at h
        obtain ⟨tail, htail⟩ := ih (acc ++ [p]) h
        exact ⟨p :: tail, by simp [htail]⟩

/-- Counterexample for claim C1: with no primary results and two CrossRef
results whose titles differ only in case, the second is appended even
though an equal (case-insensitive) title was already included by the
first append — the set of already-included titles is not consulted for
previously appended secondary results, so the combined list holds two
records with the same lowercased title. -/
theorem claim_C1_counterexample :
    verify_combine []
        [PaperRecord.mk (PyVal.str "Effects of X") (PyVal.str "u1") (PyVal.int 2020) (PyVal.str "a1"),
          PaperRecord.mk (PyVal.str "EFFECTS OF X") (PyVal.str "u2") (PyVal.int 2021) (PyVal.str "a2")]
      = Except.ok
          [PaperRecord.mk (PyVal.str "Effects of X") (PyVal.str "u1") (PyVal.int 2020) (PyVal.str "a1"),
            PaperRecord.mk (PyVal.str "EFFECTS OF X") (PyVal.str "u2") (PyVal.int 2021) (PyVal.str "a2")]
    ∧ pyLower (PyVal.str "Effects of X") = Except.ok "effects of x"
    ∧ pyLower (PyVal.str "EFFECTS OF X") = Except.ok "effects of x" :=
  ⟨rfl, rfl, rfl⟩

/-- claim C1 as amended: each secondary result is appended exactly when
its lowercased title is not among the lowercased titles of the primary
results — the excluded set is computed once from the primary list and is
not extended while secondary results are appended (so duplicate titles
within the secondary list are all kept) — and for any title present in
the primary list, every entry of the combined list bearing that
lowercased title comes from the primary list, so the primary copy wins
over any secondary duplicate. -/
theorem claim_C1 (semantic_papers crossref_papers : List PaperRecord) (ts : List String)
    (hsem : mapExcept (fun p => pyLower p.title) semantic_papers = Except.ok ts)
    (hcr : ∀ p ∈ crossref_papers, (pyLower p.title).isOk = true) :
    verify_combine semantic_papers crossref_papers
      = Except.ok (semantic_papers ++ crossref_papers.filter (keepsPaper ts))
    ∧ ∀ t, ts.contains t = true →
        (semantic_papers ++ crossref_papers.filter (keepsPaper ts)).filter (fun p => lowEq p t)
          = semantic_papers.filter (fun p => lowEq p t) := by
  constructor
  · unfold verify_combine
    rw [hsem]
    exact combineLoop_ok_eq crossref_papers ts semantic_papers hcr
  · intro t ht
    rw [List.filter_append]
    have hnone : (crossref_papers.filter (keepsPaper ts)).filter (fun p => lowEq p t) = [] := by
      rw [List.filter_eq_nil_iff]
      intro p hp
      have hkeep := (List.mem_filter.mp hp).2
      intro hlow
      match hpl : pyLower p.title with
      | .error e =>
        rw [lowEq, hpl] at hlow
        simp at hlow
      | .ok u =>
        rw [lowEq, hpl] at hlow
        have hu : u = t := by simpa using hlow
        have hmem : t ∈ ts := by simpa using ht
        have hnot : u ∉ ts := by simpa [keepsPaper, hpl] using hkeep
        exact hnot (hu ▸ hmem)
    rw [hnone, List.append_nil]

/-- Witness for claim C1: one primary paper and one CrossRef paper whose
titles differ only in case; the CrossRef copy is dropped. -/
theorem claim_C1_witness :
    verify_combine [PaperRecord.mk (PyVal.str "Shared Title") (PyVal.str "u1") (PyVal.int 2020) (PyVal.str "a1")]
        [PaperRecord.mk (PyVal.str "SHARED TITLE") (PyVal.str "u2") (PyVal.int 2021) (PyVal.str "a2")]
      = Except.ok
          ([PaperRecord.mk (PyVal.str "Shared Title") (PyVal.str "u1") (PyVal.int 2020) (PyVal.str "a1")]
            ++ [PaperRecord.mk (PyVal.str "SHARED TITLE") (PyVal.str "u2") (PyVal.int 2021) (PyVal.str "a2")].filter
                (keepsPaper ["shared title"])) :=
  (claim_C1
    [PaperRecord.mk (PyVal.str "Shared Title") (PyVal.str "u1") (PyVal.int 2020) (PyVal.str "a1")]
    [PaperRecord.mk (PyVal.str "SHARED TITLE") (PyVal.str "u2") (PyVal.int 2021) (PyVal.str "a2")]
    ["shared title"] rfl (by decide)).1

/-- Counterexample for claim C4: with a positive total limit of 1 and a
primary adapter output of two records, the aggregate is just the first
primary record — the second primary result is discarded by the
truncation, so the aggregate does not contain all primary results (the
claim allows only trailing secondary results to be discarded). -/
theorem claim_C4_counterexample :
    aggregate_papers
        [PaperRecord.mk (PyVal.str "First") (PyVal.str "u1") (PyVal.int 2020) (PyVal.str "a1"),
          PaperRecord.mk (PyVal.str "Second") (PyVal.str "u2") (PyVal.int 2021) (PyVal.str "a2")]
        [] 1
      = Except.ok [PaperRecord.mk (PyVal.str "First") (PyVal.str "u1") (PyVal.int 2020) (PyVal.str "a1")]
    ∧ ¬ (PaperRecord.mk (PyVal.str "Second") (PyVal.str "u2") (PyVal.int 2021) (PyVal.str "a2")
          ∈ [PaperRecord.mk (PyVal.str "First") (PyVal.str "u1") (PyVal.int 2020) (PyVal.str "a1")]) := by
  constructor
  · rfl
  · intro hmem
    rw [List.mem_singleton] at hmem
    have ht := congrArg PaperRecord.title hmem
    simp only at ht
    injection ht with hs
    exact absurd hs (by decide)

/-- claim C4 as amended: for every total limit and all adapter outputs
whose titles lower (so the merge does not raise), the aggregate is the
length-`limit` prefix of the merged list, hence never longer than the
limit; the merged list always extends the primary list, and whenever the
primary output fits within the limit the aggregate is the full primary
list followed by a prefix of the appended secondary results — only when
the primary output alone exceeds the limit is the primary list itself
truncated. -/
theorem claim_C4 (semantic_papers crossref_papers : List PaperRecord) (limit : Nat)
    (l : List PaperRecord)
    (hcomb : verify_combine semantic_papers crossref_papers = Except.ok l) :
    aggregate_papers semantic_papers crossref_papers limit = Except.ok (l.take limit)
    ∧ (l.take limit).length ≤ limit
    ∧ (∃ rest, l = semantic_papers ++ rest)
    ∧ (semantic_papers.length ≤ limit →
        l.take limit
          = semantic_papers ++ (l.drop semantic_papers.length).take (limit - semantic_papers.length)) := by
  have hext : ∃ rest, l = semantic_papers ++ rest := by
    unfold verify_combine at hcomb
    match hm : mapExcept (fun p => pyLower p.title) semantic_papers with
    | .error e =>
      rw [hm] at hcomb
      exact absurd hcomb (by simp)
    | .ok ts =>
      rw [hm] at hcomb
      exact combineLoop_extends crossref_papers ts semantic_papers l hcomb
  refine ⟨?_, ?_, hext, ?_⟩
  · unfold aggregate_papers
    rw [hcomb]
  · simp [List.length_take]
  · intro hfit
    obtain ⟨rest, hrest⟩ := hext
    subst hrest
    rw [List.take_append_eq_append_take, List.drop_left,
      List.take_of_length_le hfit]

/-- Witness for claim C4: one primary and one fresh secondary record
under limit 5. -/
theorem claim_C4_witness :
    aggregate_papers [PaperRecord.mk (PyVal.str "Only") (PyVal.str "u") (PyVal.int 2020) (PyVal.str "a")] [] 5
      = Except.ok ([PaperRecord.mk (PyVal.str "Only") (PyVal.str "u") (PyVal.int 2020) (PyVal.str "a")].take 5) :=
  (claim_C4 [PaperRecord.mk (PyVal.str "Only") (PyVal.str "u") (PyVal.int 2020) (PyVal.str "a")] [] 5
    [PaperRecord.mk (PyVal.str "Only") (PyVal.str "u") (PyVal.int 2020) (PyVal.str "a")] rfl).1

/-- claim C3: when the merged-and-truncated paper list is empty, the
orchestrator returns normally (the empty aggregate is not an error) with
exactly found = false, confidence "Not supported", result count 0, the
fixed no-papers summary, and an empty result list; the response is
identical under every text-generation oracle, so the Summary Generator's
external provider is never consulted for the returned payload. -/
theorem claim_C3 (semantic_papers crossref_papers : List PaperRecord) (limit : Nat)
    (g g2 : String → Except Unit String) (combined : List PaperRecord)
    (hcomb : verify_combine semantic_papers crossref_papers = Except.ok combined)
    (hempty : combined.take limit = []) :
    verify_information semantic_papers crossref_papers limit g
      = Except.ok
          (VerificationResult.mk false "Not supported" 0
            "No research papers found to generate a summary." [])
    ∧ verify_information semantic_papers crossref_papers limit g2
      = verify_information semantic_papers crossref_papers limit g := by
  have hagg : aggregate_papers semantic_papers crossref_papers limit = Except.ok [] := by
    unfold aggregate_papers
    simp only [hcomb, hempty]
  constructor
  · unfold verify_information
    rw [hagg]
    rfl
  · unfold verify_information
    rw [hagg]
    rfl

/-- Witness for claim C3: both adapters empty, limit 20, a failing oracle
and a succeeding oracle. -/
theorem claim_C3_witness :
    verify_information [] [] 20 (fun _ => Except.error ())
      = Except.ok
          (VerificationResult.mk false "Not supported" 0
            "No research papers found to generate a summary." []) :=
  (claim_C3 [] [] 20 (fun _ => Except.error ()) (fun _ => Except.ok "text") [] rfl rfl).1

/-- Every element of a successful effectful map is the image of some
input item. -/
theorem mapExcept_mem {f : α → Except PyErr β} (l : List α) (ys : List β)
    (h : mapExcept f l = .ok ys) (y : β) (hy : y ∈ ys) : ∃ x ∈ l, f x = .ok y := by
  induction l generalizing ys with
  | nil =>
    simp only [mapExcept, Except.ok.injEq] at h
    subst h
    cases hy
  | cons x xs ih =>
    simp only [mapExcept] at h
    match hx : f x with
    | .error e =>
      rw [hx] at h
      exact absurd h (by simp)
    | .ok y0 =>
      simp only [hx] at h
      match hxs : mapExcept f xs with
      | .error e =>
        rw [hxs] at h
        exact absurd h (by simp)
      | .ok ys0 =>
        rw [hxs] at h
        have hys : ys = y0 :: ys0 := by simpa using h.symm
        subst hys
        cases hy with
        | head => exact ⟨x, List.mem_cons_self x xs, hx⟩
        | tail _ htail =>
          obtain ⟨x1, hx1, hfx1⟩ := ih ys0 hxs htail
          exact ⟨x1, List.mem_cons_of_mem x hx1, hfx1⟩

/-- A successful slice yields a string or a list, never null, and a
string result has at most `n` characters. -/
theorem pySlice_ok (v w : PyVal) (n : Nat) (h : pySlice v n = .ok w) :
    scalarNonNull w = true ∧ ∀ s, w = PyVal.str s → s.length ≤ n := by
  match v with
  | .str s =>
    simp only [pySlice, Except.ok.injEq] at h
    subst h
    refine ⟨rfl, ?_⟩
    intro s2 hs2
    injection hs2 with hdata
    subst hdata
    show (String.mk (s.data.take n)).length ≤ n
    have hlen : (String.mk (s.data.take n)).length = (s.data.take n).length := rfl
    rw [hlen, List.length_take]
    exact Nat.min_le_left _ _
  | .list xs =>
    simp only [pySlice, Except.ok.injEq] at h
    subst h
    exact ⟨rfl, fun s2 hs2 => by cases hs2⟩
  | .int m => cases h
  | .dict es => cases h
  | .none => cases h

/-- A record successfully adapted from a Semantic Scholar item has a
non-null abstract of at most 500 characters (when a string). -/
theorem s2AdaptItem_abstract (paper : S2Item) (r : PaperRecord)
    (h : s2AdaptItem paper = .ok r) :
    scalarNonNull r.abstract = true ∧ ∀ s, r.abstract = PyVal.str s → s.length ≤ 500 := by
  unfold s2AdaptItem at h
  match hsl : pySlice ((paper.abstract).getD (PyVal.str "No abstract available")) 500 with
  | .error e =>
    rw [hsl] at h
    exact absurd h (by simp)
  | .ok ab =>
    rw [hsl] at h
    injection h with hr
    rw [← hr]
    exact pySlice_ok _ ab 500 hsl

/-- A record successfully adapted from a CrossRef item has a non-null
abstract of at most 500 characters (when a string), and its url is
always a string synthesized from the DOI. -/
theorem crAdaptItem_fields (item : CRItem) (r : PaperRecord)
    (h : crAdaptItem item = .ok r) :
    (scalarNonNull r.abstract = true ∧ ∀ s, r.abstract = PyVal.str s → s.length ≤ 500)
    ∧ r.url = PyVal.str ("https://doi.org/" ++ pyStrOf ((item.doi).getD (PyVal.str ""))) := by
  unfold crAdaptItem at h
  match hy : crYear item.published with
  | .error e =>
    rw [hy] at h
    exact absurd h (by simp)
  | .ok year =>
    rw [hy] at h
    match ht : pyIndex ((item.title).getD (PyVal.list [PyVal.str "No title available"])) 0 with
    | .error e =>
      rw [ht] at h
      exact absurd h (by simp)
    | .ok title =>
      rw [ht] at h
      match hsl : pySlice ((item.abstract).getD (PyVal.str "No abstract available")) 500 with
      | .error e =>
        rw [hsl] at h
        exact absurd h (by simp)
      | .ok ab =>
        rw [hsl] at h
        injection h with hr
        rw [← hr]
        exact ⟨pySlice_ok _ ab 500 hsl, rfl⟩

/-- Counterexample for claim C9: a Semantic Scholar item whose title key
is present but null.  `dict.get('title', default)` returns the stored
None rather than the placeholder, so the adapter emits a record whose
title field is null — the invariant that all four fields are non-null
fails. -/
theorem claim_C9_counterexample :
    search_semantic_scholar
        (some [S2Item.mk (some PyVal.none) (some (PyVal.str "u")) (some (PyVal.int 2020))
            (some (PyVal.str "abs")) (some (PyVal.str "pid"))])
      = [PaperRecord.mk PyVal.none (PyVal.str "u") (PyVal.int 2020) (PyVal.str "abs")]
    ∧ scalarNonNull (PaperRecord.mk PyVal.none (PyVal.str "u") (PyVal.int 2020)
        (PyVal.str "abs")).title = false :=
  ⟨rfl, rfl⟩

/-- claim C9 as amended: every record either adapter emits carries all
four fields, its abstract is never null (a null abstract raises and
empties the whole batch) and is truncated to at most 500 characters
whenever it is a string, and a CrossRef url is always a string; the
documented placeholders are substituted when a provider key is absent
(both all-absent items adapt to the full placeholder record).  However a
key present with a null value passes the null through (Semantic Scholar
title, url and year; CrossRef title and year via null list entries), so
the fields other than the abstract are not always non-null. -/
theorem claim_C9 :
    (∀ (resp : Option (List S2Item)) r, r ∈ search_semantic_scholar resp →
        scalarNonNull r.abstract = true ∧ ∀ s, r.abstract = PyVal.str s → s.length ≤ 500)
    ∧ (∀ (resp : Option (List CRItem)) r, r ∈ search_crossref resp →
        (scalarNonNull r.abstract = true ∧ ∀ s, r.abstract = PyVal.str s → s.length ≤ 500)
        ∧ ∃ u, r.url = PyVal.str u)
    ∧ s2AdaptItem (S2Item.mk Option.none Option.none Option.none Option.none Option.none)
        = Except.ok (PaperRecord.mk (PyVal.str "No title available")
            (PyVal.str "https://www.semanticscholar.org/paper/") (PyVal.str "N/A")
            (PyVal.str "No abstract available"))
    ∧ crAdaptItem (CRItem.mk Option.none Option.none Option.none Option.none)
        = Except.ok (PaperRecord.mk (PyVal.str "No title available")
            (PyVal.str "https://doi.org/") (PyVal.str "N/A")
            (PyVal.str "No abstract available")) := by
  refine ⟨?_, ?_, rfl, rfl⟩
  · intro resp r hr
    match resp with
    | Option.none => cases hr
    | some items =>
      simp only [search_semantic_scholar] at hr
      match hm : mapExcept s2AdaptItem items with
      | .error e =>
        rw [hm] at hr
        cases hr
      | .ok papers =>
        rw [hm] at hr
        obtain ⟨x, hx, hfx⟩ := mapExcept_mem items papers hm r hr
        exact s2AdaptItem_abstract x r hfx
  · intro resp r hr
    match resp with
    | Option.none => cases hr
    | some items =>
      simp only [search_crossref] at hr
      match hm : mapExcept crAdaptItem items with
      | .error e =>
        rw [hm] at hr
        cases hr
      | .ok papers =>
        rw [hm] at hr
        obtain ⟨x, hx, hfx⟩ := mapExcept_mem items papers hm r hr
        have hf := crAdaptItem_fields x r hfx
        exact ⟨hf.1, ⟨_, hf.2⟩⟩

/-- Witness for claim C9: a concrete one-item Semantic Scholar response. -/
theorem claim_C9_witness :
    scalarNonNull (PaperRecord.mk (PyVal.str "T") (PyVal.str "u") (PyVal.str "N/A")
        (PyVal.str "a")).abstract = true
    ∧ ∀ s, (PaperRecord.mk (PyVal.str "T") (PyVal.str "u") (PyVal.str "N/A")
        (PyVal.str "a")).abstract = PyVal.str s → s.length ≤ 500 :=
  claim_C9.1
    (some [S2Item.mk (some (PyVal.str "T")) (some (PyVal.str "u")) Option.none
        (some (PyVal.str "a")) Option.none])
    (PaperRecord.mk (PyVal.str "T") (PyVal.str "u") (PyVal.str "N/A") (PyVal.str "a"))
    (by
      rw [show search_semantic_scholar
            (some [S2Item.mk (some (PyVal.str "T")) (some (PyVal.str "u")) Option.none
                (some (PyVal.str "a")) Option.none])
          = [PaperRecord.mk (PyVal.str "T") (PyVal.str "u") (PyVal.str "N/A") (PyVal.str "a")]
        from rfl]
      exact List.mem_singleton.mpr rfl)
